import Mathlib

/-!
A shallow embedding of the `miroslava` micro web framework
(`src/miroslava/`), covering the parts exercised by the specification
claims: the `Headers` / `MultiDict` data structures
(`datastructures.py`), the `Response` wrapper and status normalisation
(`wrappers.py`), return-value normalisation `make_response`, URL rule
compilation and the two-pass dispatcher (`app.py`), the raw header
parser `make_environ`, the connection handler, the `abort`
short-circuit (`utils.py`) and the context stacks (`globals.py`).

Python strings and byte strings are both modelled as Lean `String`;
machine integers are `Int`; code that can raise returns
`Except PyErr _`.  Dictionaries are modelled as insertion-ordered
association lists with overwrite-in-place semantics, matching CPython
dict behaviour.
-/

namespace Miroslava

/-- Errors that the modelled Python code can raise. -/
inductive PyErr where
  | valueError (msg : String)
  | typeError (msg : String)
  | keyError (msg : String)
  | attributeError (msg : String)
  | viewError (msg : String)
deriving DecidableEq, Repr

/-- The message text used when the error is printed with `str(err)`. -/
def PyErr.msg : PyErr → String
  | .valueError m => m
  | .typeError m => m
  | .keyError m => m
  | .attributeError m => m
  | .viewError m => m

/-- Insertion-ordered association-list update: replace the value of an
existing key in place, otherwise append, as CPython dict assignment
does. -/
def assocSet {α : Type} (kvs : List (String × α)) (k : String) (v : α) :
    List (String × α) :=
  match kvs with
  | [] => [(k, v)]
  | (k₀, v₀) :: rest =>
      if k₀ = k then (k₀, v) :: rest else (k₀, v₀) :: assocSet rest k v

/-- Association-list lookup (CPython `dict.get`). -/
def assocGet {α : Type} (kvs : List (String × α)) (k : String) : Option α :=
  match kvs with
  | [] => none
  | (k₀, v₀) :: rest => if k₀ = k then some v₀ else assocGet rest k

/-- Python `str.lower()` on ASCII text (character-wise fold). -/
def pyLower (s : String) : String :=
  String.mk (s.data.map Char.toLower)

/-- Python `str.upper()` on ASCII text (character-wise fold). -/
def pyUpper (s : String) : String :=
  String.mk (s.data.map Char.toUpper)

/-- Python `s.startswith(p)`. -/
def pyStartsWith (s p : String) : Bool :=
  p.data.isPrefixOf s.data

/-- Python `s.endswith(p)`. -/
def pyEndsWith (s p : String) : Bool :=
  p.data.reverse.isPrefixOf s.data.reverse

/-- Python `c in s` for a single character. -/
def pyContainsChar (s : String) (c : Char) : Bool :=
  s.data.any (fun d => d = c)

/-- Python `s.strip()`: remove surrounding whitespace. -/
def pyTrim (s : String) : String :=
  String.mk
    (((s.data.dropWhile Char.isWhitespace).reverse.dropWhile
        Char.isWhitespace).reverse)

/-- Python `s.replace(a, b)` for single-character pattern and
replacement. -/
def pyReplaceChar (s : String) (a b : Char) : String :=
  String.mk (s.data.map (fun c => if c = a then b else c))

/-- Split a character list at each leftmost, non-overlapping
occurrence of the (non-empty) separator `s₀ :: srest`, accumulating
the current piece in reverse; the Python `str.split(sep)` loop.  The
recursion is structural on a fuel counter so that the kernel can
evaluate it; every call consumes at least one input character, so a
fuel of one more than the input length is always sufficient and the
zero-fuel branch is unreachable. -/
def splitSepAux (s₀ : Char) (srest : List Char) :
    Nat → List Char → List Char → List (List Char)
  | 0, cs, acc => [acc.reverse ++ cs]
  | _ + 1, [], acc => [acc.reverse]
  | fuel + 1, c :: rest, acc =>
      if (s₀ :: srest).isPrefixOf (c :: rest) then
        acc.reverse :: splitSepAux s₀ srest fuel (rest.drop srest.length) []
      else splitSepAux s₀ srest fuel rest (c :: acc)

/-- Python `s.split(sep)` for a non-empty separator (an empty
separator raises in Python and never occurs in the source). -/
def pySplitOn (s sep : String) : List String :=
  match sep.data with
  | [] => [s]
  | c :: cs =>
      (splitSepAux c cs (s.data.length + 1) s.data []).map String.mk

/-- True when `sep` occurs inside `s` (Python `sep in s`). -/
def strContainsSub (s sep : String) : Bool :=
  (pySplitOn s sep).length > 1

/-- Python `s.split(sep, 1)`: text before the first occurrence of
`sep` and the remainder; `none` when `sep` does not occur. -/
def splitOnce (s sep : String) : Option (String × String) :=
  match pySplitOn s sep with
  | [] => none
  | [_] => none
  | x :: rest => some (x, String.intercalate sep rest)

/-- Python `int(s)` on a string: optional surrounding whitespace and
sign, then at least one decimal digit; `none` models `ValueError`. -/
def pyIntStr (s : String) : Option Int :=
  let t := pyTrim s
  let core :=
    if pyStartsWith t "-" then (true, (t.drop 1).data)
    else if pyStartsWith t "+" then (false, (t.drop 1).data)
    else (false, t.data)
  match core with
  | (neg, ds) =>
      if ds ≠ [] ∧ ds.all Char.isDigit then
        let n : Nat := ds.foldl (fun a c => a * 10 + (c.toNat - 48)) 0
        some (if neg then -(n : Int) else (n : Int))
      else none

/-- Python `", ".join(xs)`. -/
def joinCommaSpace (xs : List String) : String :=
  String.intercalate ", " xs

/-! ## datastructures.py: `Headers`

`Headers` subclasses `MultiDict` (a `dict` mapping each key to the
list of its values) and folds every key to lower case on both store
and lookup.  The underlying dict is modelled as an insertion-ordered
association list from keys to value lists. -/

/-- The `Headers` container of `datastructures.py`: a `MultiDict`
whose keys are folded to lower case. -/
structure Headers where
  entries : List (String × List String)
deriving DecidableEq, Repr

/-- The empty `Headers()`. -/
def Headers.empty : Headers := ⟨[]⟩

/-- `Headers.__setitem__`: store `[v]` under `key.lower()`, replacing
any previous values (`MultiDict.__setitem__` wraps a non-list value in
a singleton list). -/
def Headers.set (h : Headers) (k v : String) : Headers :=
  ⟨assocSet h.entries (pyLower k) [v]⟩

/-- `Headers.__getitem__` / `MultiDict.__getitem__`: the first stored
value under `key.lower()`; `none` models `KeyError` (and the
impossible `IndexError` on an empty value list). -/
def Headers.getItem (h : Headers) (k : String) : Option String :=
  (assocGet h.entries (pyLower k)).bind List.head?

/-- `Headers.__contains__`: membership after lower-casing the key. -/
def Headers.mem (h : Headers) (k : String) : Bool :=
  (assocGet h.entries (pyLower k)).isSome

/-- `Headers.getlist` via `MultiDict.getlist` (no converter): all
stored values for `key.lower()`, `[]` when absent. -/
def Headers.getlist (h : Headers) (k : String) : List String :=
  (assocGet h.entries (pyLower k)).getD []

/-- `Headers.get` with a default (no converter): the first stored
value, or the default on `KeyError`. -/
def Headers.getD (h : Headers) (k d : String) : String :=
  (h.getItem k).getD d

/-- `Headers(mapping)`: build a `Headers` from a mapping, storing each
pair through `__setitem__` (keys folded to lower case). -/
def Headers.ofList (kvs : List (String × String)) : Headers :=
  kvs.foldl (fun h kv => h.set kv.1 kv.2) Headers.empty

/-- `MultiDict.items()` with `multi=False` as used by
`send_response`: the first value for each key, in insertion order. -/
def Headers.itemsFirst (h : Headers) : List (String × String) :=
  h.entries.filterMap (fun kv => (kv.2.head?).map (fun v => (kv.1, v)))

/-! ## wrappers.py: status tables and the `Response` class -/

/-- The reason phrase of Python `http.HTTPStatus(code)`; `none` models
the `ValueError` raised for codes that are not members of the enum.
(A table of the standard library enum, which the source imports.) -/
def HTTPStatusPhrase (code : Int) : Option String :=
  match code with
  | 100 => some "Continue"
  | 101 => some "Switching Protocols"
  | 102 => some "Processing"
  | 103 => some "Early Hints"
  | 200 => some "OK"
  | 201 => some "Created"
  | 202 => some "Accepted"
  | 203 => some "Non-Authoritative Information"
  | 204 => some "No Content"
  | 205 => some "Reset Content"
  | 206 => some "Partial Content"
  | 207 => some "Multi-Status"
  | 208 => some "Already Reported"
  | 226 => some "IM Used"
  | 300 => some "Multiple Choices"
  | 301 => some "Moved Permanently"
  | 302 => some "Found"
  | 303 => some "See Other"
  | 304 => some "Not Modified"
  | 305 => some "Use Proxy"
  | 307 => some "Temporary Redirect"
  | 308 => some "Permanent Redirect"
  | 400 => some "Bad Request"
  | 401 => some "Unauthorized"
  | 402 => some "Payment Required"
  | 403 => some "Forbidden"
  | 404 => some "Not Found"
  | 405 => some "Method Not Allowed"
  | 406 => some "Not Acceptable"
  | 407 => some "Proxy Authentication Required"
  | 408 => some "Request Timeout"
  | 409 => some "Conflict"
  | 410 => some "Gone"
  | 411 => some "Length Required"
  | 412 => some "Precondition Failed"
  | 413 => some "Request Entity Too Large"
  | 414 => some "Request-URI Too Long"
  | 415 => some "Unsupported Media Type"
  | 416 => some "Requested Range Not Satisfiable"
  | 417 => some "Expectation Failed"
  | 418 => some "I'm a Teapot"
  | 421 => some "Misdirected Request"
  | 422 => some "Unprocessable Entity"
  | 423 => some "Locked"
  | 424 => some "Failed Dependency"
  | 425 => some "Too Early"
  | 426 => some "Upgrade Required"
  | 428 => some "Precondition Required"
  | 429 => some "Too Many Requests"
  | 431 => some "Request Header Fields Too Large"
  | 451 => some "Unavailable For Legal Reasons"
  | 500 => some "Internal Server Error"
  | 501 => some "Not Implemented"
  | 502 => some "Bad Gateway"
  | 503 => some "Service Unavailable"
  | 504 => some "Gateway Timeout"
  | 505 => some "HTTP Version Not Supported"
  | 506 => some "Variant Also Negotiates"
  | 507 => some "Insufficient Storage"
  | 508 => some "Loop Detected"
  | 510 => some "Not Extended"
  | 511 => some "Network Authentication Required"
  | _ => none

/-- The `HTTP_STATUS_CODES` dict of `wrappers.py`; `none` models the
`KeyError` for a missing code. -/
def HTTP_STATUS_CODES (code : Int) : Option String :=
  match code with
  | 100 => some "Continue"
  | 101 => some "Switching Protocols"
  | 102 => some "Processing"
  | 103 => some "Early Hints"
  | 200 => some "OK"
  | 201 => some "Created"
  | 202 => some "Accepted"
  | 203 => some "Non Authoritative Information"
  | 204 => some "No Content"
  | 205 => some "Reset Content"
  | 206 => some "Partial Content"
  | 207 => some "Multi Status"
  | 208 => some "Already Reported"
  | 226 => some "IM Used"
  | 300 => some "Multiple Choices"
  | 301 => some "Moved Permanently"
  | 302 => some "Found"
  | 303 => some "See Other"
  | 304 => some "Not Modified"
  | 305 => some "Use Proxy"
  | 306 => some "Switch Proxy"
  | 307 => some "Temporary Redirect"
  | 308 => some "Permanent Redirect"
  | 400 => some "Bad Request"
  | 401 => some "Unauthorized"
  | 402 => some "Payment Required"
  | 403 => some "Forbidden"
  | 404 => some "Not Found"
  | 405 => some "Method Not Allowed"
  | 406 => some "Not Acceptable"
  | 407 => some "Proxy Authentication Required"
  | 408 => some "Request Timeout"
  | 409 => some "Conflict"
  | 410 => some "Gone"
  | 411 => some "Length Required"
  | 412 => some "Precondition Failed"
  | 413 => some "Request Entity Too Large"
  | 414 => some "Request URI Too Long"
  | 415 => some "Unsupported Media Type"
  | 416 => some "Requested Range Not Satisfiable"
  | 417 => some "Expectation Failed"
  | 418 => some "I'm a teapot"
  | 421 => some "Misdirected Request"
  | 422 => some "Unprocessable Entity"
  | 423 => some "Locked"
  | 424 => some "Failed Dependency"
  | 425 => some "Too Early"
  | 426 => some "Upgrade Required"
  | 428 => some "Precondition Required"
  | 429 => some "Too Many Requests"
  | 431 => some "Request Header Fields Too Large"
  | 449 => some "Retry With"
  | 451 => some "Unavailable For Legal Reasons"
  | 500 => some "Internal Server Error"
  | 501 => some "Not Implemented"
  | 502 => some "Bad Gateway"
  | 503 => some "Service Unavailable"
  | 504 => some "Gateway Timeout"
  | 505 => some "HTTP Version Not Supported"
  | 506 => some "Variant Also Negotiates"
  | 507 => some "Insufficient Storage"
  | 508 => some "Loop Detected"
  | 510 => some "Not Extended"
  | 511 => some "Network Authentication Failed"
  | _ => none

/-- A Python status input: `int`, `str`, or an `HTTPStatus` enum
member (which always carries a valid code). -/
inductive StatusValue where
  | int (n : Int)
  | str (s : String)
  | http (n : Int)
deriving DecidableEq, Repr

/-- Python truthiness of a status value (`status or 200` in the
source): `0` and the empty string are falsy. -/
def StatusValue.truthy : StatusValue → Bool
  | .int n => n ≠ 0
  | .str s => s ≠ ""
  | .http _ => true

/-- `Response._clean_status`: normalise a status input to the pair of
status line and numeric code, raising `ValueError` on a string that
does not start with an integer and `KeyError` on a numeric string
whose code is missing from `HTTP_STATUS_CODES`. -/
def cleanStatus : StatusValue → Except PyErr (String × Int)
  | .http n =>
      let p := (HTTPStatusPhrase n).getD ""
      .ok (s!"{n} {p}", n)
  | .int n =>
      match HTTPStatusPhrase n with
      | none => .ok (toString n, n)
      | some p => .ok (s!"{n} {p}", n)
  | .str v =>
      let parts := (splitOnce v " ").map (fun q => [q.1, q.2]) |>.getD [v]
      match parts.head? with
      | none => .error (.valueError "Status must start with an integer code")
      | some first =>
          match pyIntStr first with
          | none =>
              .error (.valueError "Status must start with an integer code")
          | some code =>
              match HTTP_STATUS_CODES code with
              | none => .error (.keyError (toString code))
              | some ph =>
                  let phu := pyUpper ph
                  .ok (s!"{code} {phu}", code)

/-- `utils.get_content_type`: append a charset for textual types. -/
def get_content_type (mimetype charset : String) : String :=
  if pyStartsWith mimetype "text/" ∨ mimetype = "application/javascript"
      ∨ mimetype = "application/xml" then
    mimetype ++ s!"; charset={charset}"
  else mimetype

/-- The body argument accepted by the `Response` constructor in the
shapes the claims exercise: absent, a `str`, or `bytes`. -/
inductive BodyInit where
  | str (s : String)
  | bytes (b : String)
deriving DecidableEq, Repr

/-- The `Response` object of `wrappers.py`: status line, numeric
status code, headers, and the body as a list of byte chunks. -/
structure Response where
  headers : Headers
  status : String
  status_code : Int
  response : List String
  direct_passthrough : Bool
deriving DecidableEq, Repr

/-- `Response.get_data()`: the concatenated body chunks. -/
def Response.get_data (r : Response) : String :=
  String.join r.response

/-- `Response.__init__`: build headers from the initial mapping,
normalise the status (default `200`), resolve the content type
(default mimetype `text/html` when none is given and no Content-Type
header is present), and store the body chunks. -/
def Response.build (response : Option BodyInit)
    (status : Option StatusValue)
    (headers : List (String × String))
    (mimetype content_type : Option String) : Except PyErr Response := do
  let hs := Headers.ofList headers
  let st := status.getD (.int 200)
  let (statusStr, code) ← cleanStatus st
  let mt :=
    match content_type with
    | some _ => content_type
    | none =>
        let mt₀ :=
          if mimetype.isNone ∧ ¬ hs.mem "Content-Type" then
            some "text/html"
          else mimetype
        mt₀.map (fun m => get_content_type m "utf-8")
  let hs :=
    match mt with
    | some ct => if ct ≠ "" then hs.set "Content-Type" ct else hs
    | none => hs
  let chunks :=
    match response with
    | none => [""]
    | some (.str s) => [s]
    | some (.bytes b) => [b]
  pure ⟨hs, statusStr, code, chunks, false⟩

/-! ## utils.py: JSON serialisation and `DefaultJSONProvider` -/

/-- A JSON value (the bodies handled by `json.dumps` in the claims). -/
inductive Json where
  | str (s : String)
  | int (n : Int)
  | bool (b : Bool)
  | null
  | obj (kvs : List (String × Json))
  | arr (xs : List Json)

/-- Escape a string as `json.dumps` does with `ensure_ascii=False`:
backslash, double quote and ASCII control characters are escaped,
everything else passes through. -/
def jsonEscape (s : String) : String :=
  s.data.foldl
    (fun acc c =>
      if c = '"' then acc ++ "\\\""
      else if c = '\\' then acc ++ "\\\\"
      else if c = '\n' then acc ++ "\\n"
      else if c = '\r' then acc ++ "\\r"
      else if c = '\t' then acc ++ "\\t"
      else acc.push c)
    ""

mutual

/-- `json.dumps(obj, ensure_ascii=False)` with the default separators
`", "` and `": "` (the provider computes an `indent` keyword but never
passes it to `dumps`, so the output is single-line). -/
def pyJsonDumps : Json → String
  | .str s => "\"" ++ jsonEscape s ++ "\""
  | .int n => toString n
  | .bool b => if b then "true" else "false"
  | .null => "null"
  | .obj kvs => "\x7b" ++ joinCommaSpace (pyJsonObjItems kvs) ++ "\x7d"
  | .arr xs => "[" ++ joinCommaSpace (pyJsonArrItems xs) ++ "]"

/-- Serialised `"key": value` members of a JSON object. -/
def pyJsonObjItems : List (String × Json) → List String
  | [] => []
  | kv :: kvs =>
      ("\"" ++ jsonEscape kv.1 ++ "\": " ++ pyJsonDumps kv.2)
        :: pyJsonObjItems kvs

/-- Serialised elements of a JSON array. -/
def pyJsonArrItems : List Json → List String
  | [] => []
  | x :: xs => pyJsonDumps x :: pyJsonArrItems xs

end

/-- `DefaultJSONProvider.response(body)` with a single positional
argument: serialise the body and wrap it in a `Response` with the
`application/json` mimetype (the `indent`/`separators` keywords are
set on a local dict that is never forwarded to `dumps`). -/
def jsonProviderResponse (body : Json) : Except PyErr Response :=
  Response.build (some (.str (pyJsonDumps body))) none []
    (some "application/json") none

/-! ## app.py: `App.make_response` -/

/-- A header value inside a headers argument: a plain string or a
list/tuple of strings (joined with `", "` on merge). -/
inductive HV where
  | str (s : String)
  | list (xs : List String)
deriving DecidableEq, Repr

/-- A headers argument to `make_response`: a mapping, or a sequence of
pairs; both are merged the same way. -/
inductive HeadersValue where
  | mapping (kvs : List (String × HV))
  | pairs (kvs : List (String × HV))
deriving DecidableEq, Repr

/-- The underlying key/value pairs of a headers argument. -/
def HeadersValue.toList : HeadersValue → List (String × HV)
  | .mapping kvs => kvs
  | .pairs kvs => kvs

/-- Python truthiness of a headers argument (`if headers:`). -/
def HeadersValue.truthy (h : HeadersValue) : Bool :=
  h.toList ≠ []

/-- A view-function body value, mirroring the `isinstance` dispatch in
`make_response`: a ready `Response`, `str`, `bytes`, `dict`, `list`,
or any other object (handled through `str(body)`). -/
inductive BodyVal where
  | resp (r : Response)
  | str (s : String)
  | bytes (b : String)
  | dict (kvs : List (String × Json))
  | list (xs : List Json)
  | other (s : String)

/-- The second element of a length-2 return tuple: an `int`, a `str`,
an `HTTPStatus` member, or a headers collection. -/
inductive Second where
  | int (n : Int)
  | str (s : String)
  | http (n : Int)
  | headers (h : HeadersValue)

/-- A view-function return value: a bare value, a length-2 tuple, a
length-3 tuple, or a tuple of any other length (a `TypeError`). -/
inductive RetVal where
  | single (b : BodyVal)
  | pair (b : BodyVal) (second : Second)
  | triple (b : BodyVal) (status : StatusValue) (headers : HeadersValue)
  | badTuple (n : Nat)

/-- The length-2 unpacking step of `make_response` (`app.py` lines
322 to 327): the second element becomes the status when it is an
`int`, `str`, or `HTTPStatus` instance, otherwise it becomes the
headers. -/
def classifySecond : Second → Option StatusValue × Option HeadersValue
  | .int n => (some (.int n), none)
  | .str s => (some (.str s), none)
  | .http n => (some (.http n), none)
  | .headers h => (none, some h)

/-- Merge a headers argument onto a response: each value is assigned
through `Headers.__setitem__`, lists joined with `", "`. -/
def mergeHeaders (r : Response) (h : HeadersValue) : Response :=
  { r with
    headers :=
      h.toList.foldl
        (fun hs kv =>
          hs.set kv.1
            (match kv.2 with
             | .str s => s
             | .list xs => joinCommaSpace xs))
        r.headers }

/-- `App.make_response`: unpack a tuple return value into body,
status, and headers; convert the body into a `Response` (JSON for
dict/list bodies, pass-through for `Response` bodies, `str`/`bytes`
bodies with `status or 200`); then merge headers.  When the body is a
`Response` or dict/list and a status was given, the source calls
`response._parse_status(status)`, a method that does not exist on
`Response`, so those paths raise `AttributeError`. -/
def make_response (rv : RetVal) : Except PyErr Response := do
  let (body, status, headers) ←
    match rv with
    | .single b => pure (b, (none : Option StatusValue),
        (none : Option HeadersValue))
    | .pair b second =>
        let (st, hd) := classifySecond second
        pure (b, st, hd)
    | .triple b st hd => pure (b, some st, some hd)
    | .badTuple _ =>
        Except.error (.typeError "A response tuple must be of length 2 or 3")
  let statusOr200 :=
    match status with
    | some sv => if sv.truthy then sv else .int 200
    | none => .int 200
  let response ←
    match body with
    | .resp r =>
        if status.isSome then
          Except.error (PyErr.attributeError
            "type object has no attribute _parse_status")
        else pure r
    | .dict kvs => do
        let r ← jsonProviderResponse (.obj kvs)
        if status.isSome then
          Except.error (PyErr.attributeError
            "type object has no attribute _parse_status")
        else pure r
    | .list xs => do
        let r ← jsonProviderResponse (.arr xs)
        if status.isSome then
          Except.error (PyErr.attributeError
            "type object has no attribute _parse_status")
        else pure r
    | .str s => Response.build (some (.str s)) (some statusOr200) [] none none
    | .bytes b =>
        Response.build (some (.bytes b)) (some statusOr200) [] none none
    | .other s =>
        Response.build (some (.str s)) (some statusOr200) [] none none
  match headers with
  | some h => if h.truthy then pure (mergeHeaders response h) else pure response
  | none => pure response

/-! ## app.py: URL rule compilation (`App.add_url_rule`)

A rule containing `<name>` or `<type:name>` placeholders is compiled
into an anchored matcher: `int` placeholders match one or more digits
and every other placeholder matches one or more non-slash characters.
The compiled regex is modelled structurally as a token list (literal
characters and named groups); regex metacharacters inside literal
segments are treated as plain text, which coincides with the source
for the slash-and-word rule strings the claims use. -/

/-- The converter kind of a placeholder: `int` gives a digits-only
group and the `int` converter, anything else the `[^/]+` group and the
`str` converter. -/
inductive GKind where
  | gint
  | gstr
deriving DecidableEq, Repr

/-- The character class of a group. -/
def gcharOk : GKind → Char → Bool
  | .gint, c => c.isDigit
  | .gstr, c => c ≠ '/'

/-- One token of a compiled rule pattern. -/
inductive Tok where
  | lit (s : String)
  | group (name : String) (k : GKind)
deriving DecidableEq, Repr

/-- Take the longest identifier (`[A-Za-z_][A-Za-z0-9_]*`) at the head
of the character list, returning it and the remaining characters. -/
def identTake (cs : List Char) : Option (String × List Char) :=
  match cs with
  | [] => none
  | c :: rest =>
      if c.isAlpha ∨ c = '_' then
        let tail := rest.takeWhile (fun d => d.isAlphanum ∨ d = '_')
        some (String.mk (c :: tail), rest.drop tail.length)
      else none

/-- Parse the inside of a `<...>` placeholder right after the opening
angle bracket, following the placeholder regex of `add_url_rule`:
an optional `type` identifier and colon, then the `name` identifier,
then the closing bracket.  Returns the optional type, the name, and
the number of characters consumed (including the closing bracket). -/
def parsePlaceholder (cs : List Char) :
    Option (Option String × String × Nat) :=
  match cs with
  | ':' :: rest =>
      (match identTake rest with
       | some (n, '>' :: _) => some (none, n, 1 + n.length + 1)
       | _ => none)
  | _ =>
      match identTake cs with
      | some (t, ':' :: rest₂) =>
          (match identTake rest₂ with
           | some (n, '>' :: _) =>
               some (some t, n, t.length + 1 + n.length + 1)
           | _ => none)
      | some (t, '>' :: _) => some (none, t, t.length + 1)
      | _ => none

/-- `type_map.get(type_name, str)` combined with the regex choice in
`_replace`: the placeholder type `int` selects the digit group, every
other (or absent) type the non-slash group. -/
def kindOf (ty : Option String) : GKind :=
  if ty = some "int" then .gint else .gstr

/-- Tokenise a rule string, replacing each placeholder occurrence by a
named group and leaving every other character literal, as `re.sub`
does with the placeholder regex.  Structural on a fuel counter for
kernel evaluation; every call consumes at least one character, so the
fuel of `tokenize` below never runs out. -/
def tokenizeF : Nat → List Char → List Tok
  | 0, _ => []
  | _ + 1, [] => []
  | fuel + 1, c :: rest =>
      if c = '<' then
        match parsePlaceholder rest with
        | some (ty, name, k) =>
            .group name (kindOf ty) :: tokenizeF fuel (rest.drop k)
        | none => .lit (String.mk [c]) :: tokenizeF fuel rest
      else .lit (String.mk [c]) :: tokenizeF fuel rest

/-- Tokenise a rule string with sufficient fuel. -/
def tokenize (cs : List Char) : List Tok :=
  tokenizeF (cs.length + 1) cs

/-- The compiled pattern of `add_url_rule`: present exactly when the
rule string contains both `<` and `>`. -/
def compilePattern (ruleStr : String) : Option (List Tok) :=
  if pyContainsChar ruleStr '<' ∧ pyContainsChar ruleStr '>' then
    some (tokenize ruleStr.data)
  else none

/-- The converters table accumulated by `_replace` during
compilation: each named group paired with its converter kind. -/
def convertersOf (pat : Option (List Tok)) : List (String × GKind) :=
  match pat with
  | none => []
  | some toks =>
      toks.filterMap (fun t =>
        match t with
        | .lit _ => none
        | .group n k => some (n, k))

mutual

/-- Anchored match of a compiled pattern against the characters of a
path (the source pattern is wrapped in `^...$`, so `pattern.match` is
a full match).  Groups are greedy with backtracking, as in `re`.
Returns the capture dictionary in group order, or `none`.  The
recursion is structural on a fuel counter so the kernel can evaluate
matches; every call strictly decreases the lexicographic measure of
remaining tokens and candidate length, so the fuel chosen by
`matchToks` below never runs out. -/
def matchToksF (fuel : Nat) (toks : List Tok) (cs : List Char) :
    Option (List (String × String)) :=
  match fuel with
  | 0 => none
  | fuel + 1 =>
      match toks, cs with
      | [], [] => some []
      | [], _ :: _ => none
      | .lit s :: ts, cs =>
          if s.data.isPrefixOf cs then
            matchToksF fuel ts (cs.drop s.data.length)
          else none
      | .group n k :: ts, cs =>
          matchGroupF fuel n k ts cs ((cs.takeWhile (gcharOk k)).length)

/-- Try capture lengths for one group from the greedy maximum down to
one character, backtracking into the rest of the pattern. -/
def matchGroupF (fuel : Nat) (n : String) (k : GKind) (ts : List Tok)
    (cs : List Char) (m : Nat) : Option (List (String × String)) :=
  match fuel with
  | 0 => none
  | fuel + 1 =>
      match m with
      | 0 => none
      | m + 1 =>
          match matchToksF fuel ts (cs.drop (m + 1)) with
          | some caps => some ((n, String.mk (List.take (m + 1) cs)) :: caps)
          | none => matchGroupF fuel n k ts cs m

end

/-- `pattern.match(path)` with fuel that covers the worst-case
backtracking depth: one step per token plus one per candidate length
per group. -/
def matchToks (toks : List Tok) (cs : List Char) :
    Option (List (String × String)) :=
  matchToksF ((toks.length + 1) * (cs.length + 2)) toks cs

/-! ## app.py: rules, the app, and `Miroslava.dispatch_request` -/

/-- A typed keyword-argument value passed to a view function: the
result of a `str` or `int` converter, or a rule default. -/
inductive PyVal where
  | int (n : Int)
  | str (s : String)
deriving DecidableEq, Repr

/-- Apply a converter to a captured segment; `none` models the
exception caught by the dispatcher (`int` on a non-numeric string). -/
def pyConvert : GKind → String → Option PyVal
  | .gstr, s => some (.str s)
  | .gint, s => (pyIntStr s).map PyVal.int

/-- A `Rule` of `utils.py` after `add_url_rule` has attached the
compiled pattern and the converters table. -/
structure Rule where
  rule : String
  endpoint : String
  methods : List String
  defaults : List (String × PyVal)
  pattern : Option (List Tok)
  converters : List (String × GKind)
deriving DecidableEq, Repr

/-- Build a `Rule` the way `add_url_rule` does: upper-case the
methods, compile the pattern when the rule string contains `<` and
`>`, and record the converters.  (The `ValueError` on a rule not
starting with a slash is a registration-time check that no claim
exercises; the claims only register rules with a leading slash.) -/
def mkRule (ruleStr : String) (endpoint : String)
    (methods : List String) (defaults : List (String × PyVal)) : Rule :=
  let pat := compilePattern ruleStr
  { rule := ruleStr
    endpoint := endpoint
    methods := methods.map pyUpper
    defaults := defaults
    pattern := pat
    converters := convertersOf pat }

/-- The outcome of calling a view function: a normal return value, an
`HTTPExceptionError` carrying a prepared response (the abort signal),
or any other exception. -/
inductive HandlerResult where
  | ok (rv : RetVal)
  | httpException (r : Response)
  | exn (msg : String)

/-- A registered view function: keyword arguments to an outcome. -/
def Handler : Type := List (String × PyVal) → HandlerResult

/-- The application state the dispatcher reads: the URL map, the view
function table, and the static-file collaborator
(`send_static_file`, treated as an opaque function of the path). -/
structure App where
  url_map : List Rule
  view_functions : List (String × Handler)
  staticFile : String → Response

/-- The parsed request fields the dispatcher consumes. -/
structure Request where
  method : String
  path : String
  query_string : String
  data : String
deriving DecidableEq, Repr

/-- The `try: rv = view_func(**kwargs) except HTTPExceptionError`
block shared by both dispatcher passes: an abort signal returns its
carried response as-is, any other exception propagates, and a normal
return value goes through `make_response`. -/
def callView (f : Handler) (kwargs : List (String × PyVal)) :
    Except PyErr Response :=
  match f kwargs with
  | .httpException resp => .ok resp
  | .exn m => .error (.viewError m)
  | .ok rv => make_response rv

/-- The `405` response built inline by the dispatcher. -/
def mk405 : Except PyErr Response :=
  Response.build (some (.str "Method Not Allowed")) (some (.int 405)) []
    none none

/-- The `404` response built inline by the dispatcher. -/
def mk404 : Except PyErr Response :=
  Response.build (some (.str "Not Found")) (some (.int 404)) [] none none

/-- The body of the first (exact-rule) loop once a pattern-less rule
with `request.path == rule.rule` is found: method check, view lookup
(`KeyError` when the endpoint is unregistered), then invocation with
the rule defaults as keyword arguments. -/
def applyExactRule (app : App) (req : Request) (r : Rule) :
    Except PyErr Response :=
  if ¬ (req.method ∈ r.methods) then mk405
  else
    match assocGet app.view_functions r.endpoint with
    | none => .error (.keyError r.endpoint)
    | some f => callView f r.defaults

/-- Merge the captured groups over the rule defaults, converting each
value; `none` models the caught converter exception (`404`). -/
def convertCaps (convs : List (String × GKind))
    (kwargs : List (String × PyVal)) :
    List (String × String) → Option (List (String × PyVal))
  | [] => some kwargs
  | (k, v) :: rest =>
      match pyConvert ((assocGet convs k).getD .gstr) v with
      | none => none
      | some pv => convertCaps convs (assocSet kwargs k pv) rest

/-- The body of the second (dynamic-rule) loop once a compiled
pattern matches the path: method check, view lookup, converter
application (failure yields `404`), then invocation. -/
def applyDynamicRule (app : App) (req : Request) (r : Rule)
    (caps : List (String × String)) : Except PyErr Response :=
  if ¬ (req.method ∈ r.methods) then mk405
  else
    match assocGet app.view_functions r.endpoint with
    | none => .error (.keyError r.endpoint)
    | some f =>
        match convertCaps r.converters r.defaults caps with
        | none => mk404
        | some kwargs => callView f kwargs

/-- Pass 1 of `dispatch_request`: iterate the URL map in registration
order, skipping rules with a compiled pattern, and fire on the first
rule whose string equals the request path. -/
def dispatchExact (app : App) (req : Request) :
    List Rule → Option (Except PyErr Response)
  | [] => none
  | r :: rest =>
      if r.pattern.isSome then dispatchExact app req rest
      else if req.path ≠ r.rule then dispatchExact app req rest
      else some (applyExactRule app req r)

/-- Pass 2 of `dispatch_request`: iterate the URL map again, this time
only rules with a compiled pattern, and fire on the first whose
pattern matches the path. -/
def dispatchDynamic (app : App) (req : Request) :
    List Rule → Option (Except PyErr Response)
  | [] => none
  | r :: rest =>
      match r.pattern with
      | none => dispatchDynamic app req rest
      | some toks =>
          match matchToks toks req.path.data with
          | none => dispatchDynamic app req rest
          | some caps => some (applyDynamicRule app req r caps)

/-- `Miroslava.dispatch_request`: static-file delegation for paths
containing a dot, then the exact pass, then the dynamic pass, then the
final `404`. -/
def dispatch_request (app : App) (req : Request) : Except PyErr Response :=
  if pyContainsChar req.path '.' ∧ ¬ pyEndsWith req.path "/" then
    .ok (app.staticFile req.path)
  else
    match dispatchExact app req app.url_map with
    | some res => res
    | none =>
        match dispatchDynamic app req app.url_map with
        | some res => res
        | none => mk404

/-! ## app.py: `Miroslava.make_environ` and the connection handler -/

/-- A WSGI-like environment: a CPython dict from string keys to string
values (the buffered request body is also stored here). -/
def Environ : Type := List (String × String)

/-- The word-accumulating loop behind Python `str.split()` with no
argument: split on whitespace runs, discarding empty pieces. -/
def splitWSGo : List Char → List Char → List (List Char)
  | [], acc => if acc = [] then [] else [acc.reverse]
  | c :: rest, acc =>
      if c.isWhitespace then
        if acc = [] then splitWSGo rest []
        else acc.reverse :: splitWSGo rest []
      else splitWSGo rest (c :: acc)

/-- Python `str.split()` with no argument. -/
def pySplitWS (s : String) : List String :=
  (splitWSGo s.data []).map String.mk

/-- The value of a hexadecimal digit. -/
def hexVal (c : Char) : Option Nat :=
  if c.isDigit then some (c.toNat - 48)
  else if 'a' ≤ c ∧ c ≤ 'f' then some (c.toNat - 97 + 10)
  else if 'A' ≤ c ∧ c ≤ 'F' then some (c.toNat - 65 + 10)
  else none

/-- `urllib.parse.unquote` restricted to single-byte escapes: decode
each valid `%XX` pair, leave invalid escapes untouched.  (Multi-byte
UTF-8 escape sequences are outside the paths the claims use.) -/
def unquoteChars : List Char → List Char
  | [] => []
  | '%' :: h₁ :: h₂ :: rest =>
      match hexVal h₁, hexVal h₂ with
      | some a, some b => Char.ofNat (16 * a + b) :: unquoteChars rest
      | _, _ => '%' :: unquoteChars (h₁ :: h₂ :: rest)
  | c :: rest => c :: unquoteChars rest

/-- `unquote` on a string. -/
def pyUnquote (s : String) : String :=
  String.mk (unquoteChars s.data)

/-- One iteration of the header loop in `make_environ`: a line
containing `": "` is split at its first occurrence, the name is
upper-cased with `-` replaced by `_`, and the stripped value is stored
unprefixed for `CONTENT_LENGTH`/`CONTENT_TYPE` and under the `HTTP_`
namespace otherwise.  Lines without `": "` are skipped. -/
def processHeaderLine (env : Environ) (line : String) : Environ :=
  if strContainsSub line ": " then
    match splitOnce line ": " with
    | some (key, value) =>
        let key := pyReplaceChar (pyUpper key) '-' '_'
        if key = "CONTENT_LENGTH" ∨ key = "CONTENT_TYPE" then
          assocSet env key (pyTrim value)
        else assocSet env ("HTTP_" ++ key) (pyTrim value)
    | none => env
  else env

/-- The base environment dict built at the top of `make_environ`. -/
def baseEnviron : Environ :=
  [("REQUEST_METHOD", "GET"), ("PATH_INFO", "/"), ("QUERY_STRING", ""),
   ("SERVER_NAME", "localhost"), ("SERVER_PORT", "9001"),
   ("wsgi.url_scheme", "http")]

/-- The request-line step of `make_environ`: the base environment,
with method, path, and query string filled in when the first raw line
has at least two words. -/
def requestLineEnviron (headers : String) : Environ :=
  let lines := pySplitOn headers "\r\n"
  let request_url := pySplitWS ((lines.head?).getD "")
  let environ := baseEnviron
  match request_url with
  | m :: p :: _ =>
      let environ := assocSet environ "REQUEST_METHOD" m
      let (path, environ) :=
        if strContainsSub p "?" then
          match splitOnce p "?" with
          | some (path, query) =>
              (path, assocSet environ "QUERY_STRING" query)
          | none => (p, environ)
        else (p, environ)
      assocSet environ "PATH_INFO" (pyUnquote path)
  | _ => environ

/-- `Miroslava.make_environ`: split the raw header block on `\r\n`,
parse the request line (method, path, optional query string) when it
has at least two words, then fold the header lines into the
environment. -/
def make_environ (headers : String) : Environ :=
  ((pySplitOn headers "\r\n").drop 1).foldl processHeaderLine
    (requestLineEnviron headers)

/-- `Request.__init__` restricted to the fields the claims observe:
method (upper-cased, default `GET`), path (default `/`), query string
(default empty), and the raw body bytes, which come from the
`miroslava.request_body` environment key with `b""` as default. -/
def Request.ofEnviron (env : Environ) : Request :=
  { method := pyUpper ((assocGet env "REQUEST_METHOD").getD "GET")
    path := (assocGet env "PATH_INFO").getD "/"
    query_string := (assocGet env "QUERY_STRING").getD ""
    data := (assocGet env "miroslava.request_body").getD "" }

/-- The outcome of the read-and-parse phase of `handle_client`
(`app.py` lines 527 to 548): the connection is silently dropped when
no `\r\n\r\n` terminator arrives; `int(cl)` on a malformed
Content-Length raises inside the `try`; otherwise a `Request` is
built, with the buffered body bytes stored into the environment only
under a truthy `CONTENT_LENGTH`.  The socket is modelled as having
delivered `data` followed by end-of-stream, so the read-more loop
never extends the body. -/
inductive ReadOutcome where
  | dropped
  | failed (e : PyErr)
  | request (req : Request) (env : Environ)

/-- The read-and-parse phase of `handle_client` on the full byte
stream of the connection. -/
def read_request (data : String) : ReadOutcome :=
  if ¬ strContainsSub data "\r\n\r\n" then .dropped
  else
    match splitOnce data "\r\n\r\n" with
    | none => .dropped
    | some (headersData, bodyData) =>
        let env := make_environ headersData
        match assocGet env "CONTENT_LENGTH" with
        | some clv =>
            if clv ≠ "" then
              match pyIntStr clv with
              | none =>
                  .failed (.valueError
                    ("invalid literal for int() with base 10: " ++ clv))
              | some _ =>
                  let env := assocSet env "miroslava.request_body" bodyData
                  .request (Request.ofEnviron env) env
            else .request (Request.ofEnviron env) env
        | none => .request (Request.ofEnviron env) env

/-- `Miroslava.send_response`: the bytes written to the client socket
for a response: status line, the first value of each header key, a
computed Content-Length, a blank line, and the body. -/
def send_response_bytes (r : Response) : String :=
  let status_line := "HTTP/1.1 " ++ r.status ++ "\r\n"
  let headerLines :=
    String.join ((r.headers.itemsFirst).map
      (fun kv => kv.1 ++ ": " ++ kv.2 ++ "\r\n"))
  status_line ++ headerLines
    ++ "Content-Length: " ++ toString r.get_data.length ++ "\r\n\r\n"
    ++ r.get_data

/-- One line printed to stdout by the worker: the access log written
by `log_request` (its timestamp is not modelled) or the
`Internal Server Error` line of the exception handler. -/
inductive ConsoleEntry where
  | accessLog (method path : String) (status : Int)
  | internalError (msg : String)
deriving DecidableEq, Repr

/-- The observable outcome of one worker: the bytes sent back to the
client, if any, and the console output. -/
structure ClientResult where
  sent : Option String
  console : List ConsoleEntry
deriving DecidableEq, Repr

/-- `Miroslava.handle_client` on the full byte stream of one
connection: parse, dispatch, log, and send; any exception escaping
the body (including any exception other than `HTTPExceptionError`
raised by a view function) is caught by the outer handler, which
prints `Internal Server Error: ...` to the console and closes the
socket without sending anything.  The context push/pop pairs around
dispatch have no observable effect in this single-connection model. -/
def handle_client (app : App) (data : String) : ClientResult :=
  match read_request data with
  | .dropped => ⟨none, []⟩
  | .failed e => ⟨none, [.internalError ("Internal Server Error: " ++ e.msg)]⟩
  | .request req _ =>
      match dispatch_request app req with
      | .error e =>
          ⟨none, [.internalError ("Internal Server Error: " ++ e.msg)]⟩
      | .ok resp =>
          ⟨some (send_response_bytes resp),
           [.accessLog req.method req.path resp.status_code]⟩

/-! ## utils.py: `abort` -/

/-- The argument of `abort`: a status code or a ready `Response`. -/
inductive AbortArg where
  | status (n : Int)
  | resp (r : Response)

/-- The response carried by the `HTTPExceptionError` that `abort`
raises: a `Response` argument is carried as-is; otherwise the body is
the description (when truthy) or the `HTTPStatus` phrase of the code
(`ValueError` for an invalid code), wrapped through `make_response`
as a (body, code, headers) or (body, code) tuple. -/
def abort_response (arg : AbortArg) (description : Option String)
    (headers : Option HeadersValue) : Except PyErr Response := do
  match arg with
  | .resp r => pure r
  | .status code =>
      let body ←
        match description with
        | some d =>
            if d ≠ "" then pure d
            else
              match HTTPStatusPhrase code with
              | some p => pure p
              | none =>
                  Except.error (.valueError
                    (toString code ++ " is not a valid HTTPStatus"))
        | none =>
            match HTTPStatusPhrase code with
            | some p => pure p
            | none =>
                Except.error (.valueError
                  (toString code ++ " is not a valid HTTPStatus"))
      match headers with
      | some h =>
          if h.truthy then
            make_response (.triple (.str body) (.int code) h)
          else make_response (.pair (.str body) (.int code))
      | none => make_response (.pair (.str body) (.int code))

/-! ## globals.py: the context stacks

`AppContext` and `RequestContext` each keep a private `_cv_tokens`
list and push/pop a `ContextVar`.  `ContextVar.set` returns a token
holding the previous value; `reset` restores it.  The state is the
token list of one context object together with the context variable
of the calling execution unit; the stored contexts themselves are
abstracted by a type parameter. -/

/-- The token list of one context object paired with the context
variable of the calling execution unit (each token records the
variable value it replaced). -/
structure CtxState (α : Type) where
  tokens : List (Option α)
  cvar : Option α
deriving DecidableEq, Repr

/-- `AppContext.push`: append the `ContextVar.set` token and make this
context current. -/
def AppContext.push {α : Type} (st : CtxState α) (self : α) : CtxState α :=
  { tokens := st.tokens ++ [st.cvar], cvar := some self }

/-- `AppContext.pop`: when the token list is non-empty, pop its last
token and reset the context variable; otherwise do nothing.  The
method body has no return statement, so the call returns `None`
either way; the `Except` layer records that no exception escapes. -/
def AppContext.pop {α : Type} (st : CtxState α) :
    Except PyErr (CtxState α × Option α) :=
  match st.tokens.getLast? with
  | some old => .ok ({ tokens := st.tokens.dropLast, cvar := old }, none)
  | none => .ok (st, none)

/-- `RequestContext.push`: identical in the source to
`AppContext.push`, acting on the request context variable. -/
def RequestContext.push {α : Type} (st : CtxState α) (self : α) :
    CtxState α :=
  { tokens := st.tokens ++ [st.cvar], cvar := some self }

/-- `RequestContext.pop`: identical in the source to
`AppContext.pop`, acting on the request context variable. -/
def RequestContext.pop {α : Type} (st : CtxState α) :
    Except PyErr (CtxState α × Option α) :=
  match st.tokens.getLast? with
  | some old => .ok ({ tokens := st.tokens.dropLast, cvar := old }, none)
  | none => .ok (st, none)

/-! ## General lemmas about the dict model -/

theorem assocGet_set_self {α : Type} (l : List (String × α)) (k : String)
    (v : α) : assocGet (assocSet l k v) k = some v := by
  induction l with
  | nil => simp [assocSet, assocGet]
  | cons kv rest ih =>
      by_cases h : kv.1 = k
      · simp [assocSet, assocGet, h]
      · simp [assocSet, assocGet, h, ih]

theorem assocGet_set_other {α : Type} (l : List (String × α)) (k k' : String)
    (v : α) (hne : k' ≠ k) :
    assocGet (assocSet l k v) k' = assocGet l k' := by
  have hkk : k ≠ k' := fun hh => hne hh.symm
  induction l with
  | nil => simp [assocSet, assocGet, hkk]
  | cons kv rest ih =>
      by_cases h : kv.1 = k
      · simp [assocSet, assocGet, h, hkk]
      · simp [assocSet, assocGet, h, ih]

/-! ## Claims C9, C4, C3 -/

/-- C9: storing a header under any key makes it readable, visible to
membership tests, and listed by `getlist` under every ASCII
case-variant of that key, because both store and lookup fold keys to
lower case. -/
theorem headers_case_insensitive_roundtrip (h : Headers) (k k' v : String)
    (hk : pyLower k' = pyLower k) :
    (h.set k v).getItem k' = some v ∧ (h.set k v).mem k' = true ∧
      (h.set k v).getlist k' = [v] := by
  unfold Headers.set Headers.getItem Headers.mem Headers.getlist
  rw [hk]
  simp [assocGet_set_self]

/-- C9 witness: the roundtrip at a concrete header and case-variant
key. -/
theorem headers_case_insensitive_roundtrip_witness :
    (Headers.empty.set "Content-Type" "x").getItem "CONTENT-TYPE" = some "x"
      ∧ (Headers.empty.set "Content-Type" "x").mem "CONTENT-TYPE" = true
      ∧ (Headers.empty.set "Content-Type" "x").getlist "CONTENT-TYPE"
          = ["x"] :=
  headers_case_insensitive_roundtrip Headers.empty "Content-Type"
    "CONTENT-TYPE" "x" (by decide)

/-- C4 counterexample: the non-numeric plain string `"abc"` as the
second element of a length-2 tuple is classified as a status, not as
a header collection (the source tests `isinstance(second, (int, str,
HTTPStatus))`, which any string passes), and feeding such a tuple to
`make_response` consequently fails in status parsing instead of
merging headers. -/
theorem make_response_nonnumeric_string_is_status :
    classifySecond (.str "abc") = (some (.str "abc"), none)
      ∧ pyIntStr "abc" = none
      ∧ make_response (.pair (.str "x") (.str "abc")) =
          .error (.valueError "Status must start with an integer code") := by
  refine ⟨by decide, by decide, by rfl⟩

/-- C4 amended: the second element of a length-2 tuple is treated as
the status exactly when it is an integer, an `HTTPStatus` member, or
any string (numeric or not); only values that are none of these are
treated as a header collection. -/
theorem make_response_second_classification (second : Second) :
    ((classifySecond second).1.isSome = true ↔
        ((∃ n, second = .int n) ∨ (∃ s, second = .str s) ∨
          (∃ n, second = .http n)))
      ∧ ((classifySecond second).2.isSome = true ↔
          ∃ h, second = .headers h) := by
  cases second <;> simp [classifySecond]

/-- C3: the source normalisation of the tuple
`({"a": 1}, 201, {"X-Test": "v"})` does not produce a `201` response:
after building the JSON response it calls
`response._parse_status(status)`, a method that does not exist on
`Response` (only `_clean_status` does), so dispatch raises
`AttributeError` instead of returning the described response. -/
theorem make_response_tuple3_parse_status_bug :
    make_response (.triple (.dict [("a", Json.int 1)]) (.int 201)
        (.mapping [("X-Test", HV.str "v")])) =
      .error (.attributeError
        "type object has no attribute _parse_status") := rfl

/-! ## Claims C7, C1, C2, C5, C6 -/

/-- C7 counterexample: popping an empty context stack (either class)
returns normally with `None` instead of raising: the method body is
guarded by `if self._cv_tokens:` and simply does nothing. -/
theorem ctx_pop_empty_returns_normally :
    AppContext.pop (⟨[], none⟩ : CtxState Nat) = .ok (⟨[], none⟩, none)
      ∧ RequestContext.pop (⟨[], none⟩ : CtxState Nat)
          = .ok (⟨[], none⟩, none) :=
  ⟨rfl, rfl⟩

/-- C7 (amended): `pop()` on either context class never raises and
always returns `None`; when the token stack is non-empty it removes
the last token and resets the context variable to the value that
token stored, and when the stack is empty it leaves the state
unchanged. -/
theorem ctx_pop_removes_top_returns_none {α : Type} (st : CtxState α) :
    AppContext.pop st =
        .ok (⟨st.tokens.dropLast, (st.tokens.getLast?).getD st.cvar⟩, none)
      ∧ RequestContext.pop st =
        .ok (⟨st.tokens.dropLast, (st.tokens.getLast?).getD st.cvar⟩,
          none) := by
  obtain ⟨tokens, cvar⟩ := st
  constructor <;>
  · cases h : tokens.getLast? with
    | none =>
        have hnil : tokens = [] := List.getLast?_eq_none_iff.mp h
        subst hnil
        rfl
    | some old => simp [AppContext.pop, RequestContext.pop, h]

/-- The static-file collaborator used by the concrete apps below; the
claims never reach it. -/
def emptyStatic : String → Response :=
  fun _ => ⟨Headers.empty, "200 OK", 200, [""], false⟩

/-- A view function whose body raises `RuntimeError("boom")`. -/
def boomHandler : Handler := fun _ => .exn "boom"

/-- An app with the single exact rule `/x` bound to `boomHandler`. -/
def boomApp : App :=
  ⟨[mkRule "/x" "x" ["GET"] []], [("x", boomHandler)], emptyStatic⟩

/-- C1 counterexample: a view function that raises an unexpected
exception does not produce a `500` response sent to the client: the
worker sends nothing at all (the socket is closed without any
response bytes) and only the console receives the message. -/
theorem handle_client_fault_sends_nothing :
    (handle_client boomApp "GET /x HTTP/1.1\r\nHost: a\r\n\r\n").sent = none
      ∧ (handle_client boomApp "GET /x HTTP/1.1\r\nHost: a\r\n\r\n").console
          = [.internalError "Internal Server Error: boom"] :=
  ⟨rfl, rfl⟩

/-- C1 (amended): when a view function raises any exception other
than the abort signal, the exception escapes `dispatch_request` and
the Connection Handler prints `Internal Server Error: <message>` to
the console only, closing the connection without sending any HTTP
response to the client (no `500` response is sent, and the message
never reaches the response body because no body is sent). -/
theorem handle_client_fault_console_only (app : App) (data : String)
    (req : Request) (env : Environ) (e : PyErr)
    (hread : read_request data = .request req env)
    (hdisp : dispatch_request app req = .error e) :
    handle_client app data =
      ⟨none, [.internalError ("Internal Server Error: " ++ e.msg)]⟩ := by
  unfold handle_client
  rw [hread]
  show (match dispatch_request app req with
    | .error e => ClientResult.mk none
        [.internalError ("Internal Server Error: " ++ e.msg)]
    | .ok resp => ⟨some (send_response_bytes resp),
        [.accessLog req.method req.path resp.status_code]⟩) = _
  rw [hdisp]

/-- C1 witness: the amended theorem at the concrete faulting app. -/
theorem handle_client_fault_console_only_witness :
    handle_client boomApp "GET /x HTTP/1.1\r\nHost: a\r\n\r\n" =
      ⟨none, [.internalError ("Internal Server Error: "
        ++ (PyErr.viewError "boom").msg)]⟩ :=
  handle_client_fault_console_only boomApp "GET /x HTTP/1.1\r\nHost: a\r\n\r\n"
    (Request.ofEnviron (make_environ "GET /x HTTP/1.1\r\nHost: a"))
    (make_environ "GET /x HTTP/1.1\r\nHost: a")
    (.viewError "boom") rfl rfl

/-- C2: for a path matching both a pattern-less (exact) rule and a
rule with a compiled matcher (dynamic), the dispatcher resolves the
request through the exact rule in both registration orders, because
pass 1 only looks at pattern-less rules and pass 2 runs afterwards. -/
theorem dispatch_exact_beats_dynamic
    (vfs : List (String × Handler)) (sf : String → Response)
    (E D : Rule) (req : Request)
    (hE : E.pattern = none) (hEp : req.path = E.rule)
    (pat : List Tok) (hD : D.pattern = some pat)
    (hm : (matchToks pat req.path.data).isSome = true)
    (hdot : pyContainsChar req.path '.' = false) :
    dispatch_request ⟨[E, D], vfs, sf⟩ req
        = applyExactRule ⟨[E, D], vfs, sf⟩ req E
      ∧ dispatch_request ⟨[D, E], vfs, sf⟩ req
        = applyExactRule ⟨[D, E], vfs, sf⟩ req E := by
  rw [hEp] at hdot
  constructor <;>
  · unfold dispatch_request
    simp [hdot, dispatchExact, hE, hD, hEp]

/-- A view table and rules for the C2 witness: `/hello` is exact and
`/<name>` is dynamic, and both match the request path `/hello`. -/
def c2Handlers : List (String × Handler) :=
  [("e", fun _ => .ok (.single (.str "exact"))),
   ("d", fun _ => .ok (.single (.str "dynamic")))]

/-- The exact rule of the C2 witness. -/
def c2ExactRule : Rule := mkRule "/hello" "e" ["GET"] []

/-- The dynamic rule of the C2 witness. -/
def c2DynRule : Rule := mkRule "/<name>" "d" ["GET"] []

/-- The request of the C2 witness. -/
def c2Req : Request := ⟨"GET", "/hello", "", ""⟩

/-- C2 witness: both registration orders resolve `/hello` through the
exact rule. -/
theorem dispatch_exact_beats_dynamic_witness :
    dispatch_request ⟨[c2ExactRule, c2DynRule], c2Handlers, emptyStatic⟩ c2Req
        = applyExactRule ⟨[c2ExactRule, c2DynRule], c2Handlers, emptyStatic⟩
            c2Req c2ExactRule
      ∧ dispatch_request ⟨[c2DynRule, c2ExactRule], c2Handlers, emptyStatic⟩
            c2Req
        = applyExactRule ⟨[c2DynRule, c2ExactRule], c2Handlers, emptyStatic⟩
            c2Req c2ExactRule :=
  dispatch_exact_beats_dynamic c2Handlers emptyStatic c2ExactRule c2DynRule
    c2Req rfl rfl (tokenize "/<name>".data) rfl rfl rfl

/-- The app of claim C5: the single dynamic rule `/item/<int:id>`. -/
def c5App (h : Handler) : App :=
  ⟨[mkRule "/item/<int:id>" "item" ["GET"] []], [("item", h)], emptyStatic⟩

/-- The `404` response the dispatcher builds when no rule matches. -/
def notFoundResponse : Response :=
  ⟨Headers.empty.set "Content-Type" "text/html; charset=utf-8",
   "404 Not Found", 404, ["Not Found"], false⟩

/-- C5: dispatching `GET /item/12` against `/item/<int:id>` invokes
the registered view function with the keyword argument `id` bound to
the integer `12`, for every view function; and dispatching
`GET /item/abc` yields the `404` response (the digit-only matcher
rejects `abc`, so the rule is no match), never a `500`. -/
theorem dispatch_int_converter (h : Handler) :
    dispatch_request (c5App h) ⟨"GET", "/item/12", "", ""⟩
        = callView h [("id", PyVal.int 12)]
      ∧ dispatch_request (c5App h) ⟨"GET", "/item/abc", "", ""⟩
        = .ok notFoundResponse
      ∧ notFoundResponse.status_code = 404 :=
  ⟨rfl, rfl, rfl⟩

/-- The app of claim C6: an exact rule whose view function raises the
abort signal carrying the response `r`. -/
def c6App (r : Response) : App :=
  ⟨[mkRule "/teapot" "t" ["GET"] []],
   [("t", fun _ => .httpException r)], emptyStatic⟩

/-- The response that `abort(418)` builds and carries: body and
reason phrase from `HTTPStatus(418)`. -/
def teapotResponse : Response :=
  ⟨Headers.empty.set "Content-Type" "text/html; charset=utf-8",
   "418 I'm a Teapot", 418, ["I'm a Teapot"], false⟩

/-- C6: a view function that raises the abort signal carrying a
prepared response makes the dispatcher return exactly that response
(caught at the invocation site, no `make_response` normalisation is
applied to it), for every carried response; and the response built by
`abort(418)` has status code `418`. -/
theorem dispatch_abort_short_circuit (r : Response) :
    dispatch_request (c6App r) ⟨"GET", "/teapot", "", ""⟩ = .ok r
      ∧ abort_response (.status 418) none none = .ok teapotResponse
      ∧ teapotResponse.status_code = 418 :=
  ⟨rfl, rfl, rfl⟩

/-! ## Claims C8 and C10 -/

/-- The environment key the claim (spec) assigns to a raw header
name: upper-case with `-` replaced by `_`, stored bare when the
result is `CONTENT_LENGTH` or `CONTENT_TYPE` and under the `HTTP_`
namespace otherwise. -/
def headerTargetKey (name : String) : String :=
  let k := pyReplaceChar (pyUpper name) '-' '_'
  if k = "CONTENT_LENGTH" ∨ k = "CONTENT_TYPE" then k else "HTTP_" ++ k

/-- The value a single raw line contributes to a target environment
key, per the claim: a `Name: value` line (split at its first `": "`)
contributes its stripped value to the key `headerTargetKey Name`. -/
def lineContribution (line target : String) : Option String :=
  if strContainsSub line ": " then
    match splitOnce line ": " with
    | some (key, value) =>
        if headerTargetKey key = target then some (pyTrim value) else none
    | none => none
  else none

/-- The claim reading of duplicate handling: among all header lines,
the LAST line contributing to a key wins (later overwrites earlier). -/
def lastHeaderValue (ls : List String) (target : String) : Option String :=
  ls.reverse.findSome? (fun l => lineContribution l target)

theorem processHeaderLine_lookup (env : Environ) (line target : String) :
    assocGet (processHeaderLine env line) target =
      match lineContribution line target with
      | some v => some v
      | none => assocGet env target := by
  unfold processHeaderLine lineContribution
  by_cases hc : strContainsSub line ": " = true
  · simp only [hc, if_true]
    cases hs : splitOnce line ": " with
    | none => simp
    | some kv =>
        obtain ⟨key, value⟩ := kv
        simp only []
        by_cases hcl : pyReplaceChar (pyUpper key) '-' '_' = "CONTENT_LENGTH"
            ∨ pyReplaceChar (pyUpper key) '-' '_' = "CONTENT_TYPE"
        · simp only [headerTargetKey, hcl, if_true]
          by_cases ht : pyReplaceChar (pyUpper key) '-' '_' = target
          · rw [ht]
            simp [assocGet_set_self]
          · rw [if_neg ht, assocGet_set_other _ _ _ _ (fun h => ht h.symm)]
        · simp only [headerTargetKey, hcl, if_false]
          by_cases ht : "HTTP_" ++ pyReplaceChar (pyUpper key) '-' '_' = target
          · rw [ht]
            simp [assocGet_set_self]
          · rw [if_neg ht, assocGet_set_other _ _ _ _ (fun h => ht h.symm)]
  · simp only [Bool.not_eq_true] at hc
    simp [hc]

theorem foldHeader_lookup (ls : List String) (env : Environ)
    (target : String) :
    assocGet (ls.foldl processHeaderLine env) target =
      match lastHeaderValue ls target with
      | some v => some v
      | none => assocGet env target := by
  induction ls generalizing env with
  | nil => simp [lastHeaderValue]
  | cons l rest ih =>
      rw [List.foldl_cons, ih (processHeaderLine env l)]
      unfold lastHeaderValue
      rw [List.reverse_cons, List.findSome?_append]
      cases hr : (rest.reverse.findSome? (fun l => lineContribution l target))
          with
      | some v => simp [lastHeaderValue, hr, Option.or]
      | none =>
          rw [processHeaderLine_lookup]
          cases hl : lineContribution l target with
          | some w => simp [lastHeaderValue, hr, hl, Option.or, List.findSome?]
          | none => simp [lastHeaderValue, hr, hl, Option.or, List.findSome?]

theorem make_environ_lookup (headers target : String) :
    assocGet (make_environ headers) target =
      match lastHeaderValue ((pySplitOn headers "\r\n").drop 1) target with
      | some v => some v
      | none => assocGet (requestLineEnviron headers) target := by
  unfold make_environ
  exact foldHeader_lookup _ _ _

/-- C8: looking up any key in the environment built by `make_environ`
agrees with the claim description of the header mapping: the value is
the stripped value of the LAST raw `Name: value` line whose name maps
to that key under `headerTargetKey` (upper-case, `-` to `_`,
unprefixed only for Content-Length and Content-Type, `HTTP_` prefix
otherwise; later duplicate lines overwrite earlier ones), and only
when no header line maps there does the request-line environment show
through. -/
theorem make_environ_header_mapping (headers target : String) :
    assocGet (make_environ headers) target =
      match lastHeaderValue ((pySplitOn headers "\r\n").drop 1) target with
      | some v => some v
      | none => assocGet (requestLineEnviron headers) target :=
  make_environ_lookup headers target

theorem httpPrefixed_ne_request_body (k : String) :
    "HTTP_" ++ k ≠ "miroslava.request_body" := by
  intro h
  have h2 := congrArg String.data h
  rw [String.data_append] at h2
  have h3 : "HTTP_".data = ['H', 'T', 'T', 'P', '_'] := rfl
  have h4 : "miroslava.request_body".data =
      'm' :: "iroslava.request_body".data := rfl
  rw [h3, h4] at h2
  simp at h2

theorem lineContribution_request_body (line : String) :
    lineContribution line "miroslava.request_body" = none := by
  unfold lineContribution
  by_cases hc : strContainsSub line ": " = true
  · simp only [hc, if_true]
    cases hs : splitOnce line ": " with
    | none => simp
    | some kv =>
        obtain ⟨key, value⟩ := kv
        simp only [headerTargetKey]
        by_cases hcl : pyReplaceChar (pyUpper key) '-' '_' = "CONTENT_LENGTH"
            ∨ pyReplaceChar (pyUpper key) '-' '_' = "CONTENT_TYPE"
        · rcases hcl with hcl | hcl <;> simp [hcl]
        · simp only [hcl, if_false]
          rw [if_neg (httpPrefixed_ne_request_body _)]
  · simp only [Bool.not_eq_true] at hc
    simp [hc]

theorem requestLineEnviron_request_body (headers : String) :
    assocGet (requestLineEnviron headers) "miroslava.request_body" = none := by
  unfold requestLineEnviron
  dsimp only []
  cases hru : pySplitWS (((pySplitOn headers "\r\n").head?).getD "") with
  | nil => rfl
  | cons m rest =>
      cases rest with
      | nil => rfl
      | cons p rest₂ =>
          dsimp only []
          by_cases hq : strContainsSub p "?" = true
          · rw [if_pos hq]
            cases hsp : splitOnce p "?" with
            | none =>
                dsimp only []
                rw [assocGet_set_other _ _ _ _ (by decide),
                  assocGet_set_other _ _ _ _ (by decide)]
                rfl
            | some pq =>
                obtain ⟨pa, qu⟩ := pq
                dsimp only []
                rw [assocGet_set_other _ _ _ _ (by decide),
                  assocGet_set_other _ _ _ _ (by decide),
                  assocGet_set_other _ _ _ _ (by decide)]
                rfl
          · rw [if_neg hq]
            dsimp only []
            rw [assocGet_set_other _ _ _ _ (by decide),
              assocGet_set_other _ _ _ _ (by decide)]
            rfl

theorem make_environ_no_request_body (headers : String) :
    assocGet (make_environ headers) "miroslava.request_body" = none := by
  rw [make_environ_lookup]
  have hline : lastHeaderValue ((pySplitOn headers "\r\n").drop 1)
      "miroslava.request_body" = none := by
    unfold lastHeaderValue
    induction ((pySplitOn headers "\r\n").drop 1).reverse with
    | nil => rfl
    | cons l rest ih =>
        rw [List.findSome?_cons, lineContribution_request_body]
        exact ih
  rw [hline, requestLineEnviron_request_body]

/-- C10: when the parsed header block yields no `CONTENT_LENGTH`
entry, or an empty one, the connection handler does not store the
buffered body bytes into the environment, and the constructed
`Request` has empty raw body data, even when bytes were buffered
after the `\r\n\r\n` terminator. -/
theorem request_data_empty_without_content_length
    (data headersData bodyData : String)
    (hterm : strContainsSub data "\r\n\r\n" = true)
    (hsplit : splitOnce data "\r\n\r\n" = some (headersData, bodyData))
    (hcl : assocGet (make_environ headersData) "CONTENT_LENGTH" = none
      ∨ assocGet (make_environ headersData) "CONTENT_LENGTH" = some "") :
    read_request data =
        .request (Request.ofEnviron (make_environ headersData))
          (make_environ headersData)
      ∧ (Request.ofEnviron (make_environ headersData)).data = "" := by
  constructor
  · unfold read_request
    simp only [hterm, if_true, Bool.not_true, Bool.false_eq_true, if_false,
      hsplit]
    rcases hcl with hcl | hcl <;> simp [hcl]
  · show ((assocGet (make_environ headersData)
        "miroslava.request_body").getD "") = ""
    rw [make_environ_no_request_body]
    rfl

/-- C10 witness: a request with buffered bytes after the terminator
but no Content-Length header yields a request with empty body data. -/
theorem request_data_empty_without_content_length_witness :
    read_request "GET /x HTTP/1.1\r\nHost: a\r\n\r\nLEFTOVER" =
        .request
          (Request.ofEnviron (make_environ "GET /x HTTP/1.1\r\nHost: a"))
          (make_environ "GET /x HTTP/1.1\r\nHost: a")
      ∧ (Request.ofEnviron
          (make_environ "GET /x HTTP/1.1\r\nHost: a")).data = "" :=
  request_data_empty_without_content_length
    "GET /x HTTP/1.1\r\nHost: a\r\n\r\nLEFTOVER"
    "GET /x HTTP/1.1\r\nHost: a" "LEFTOVER" rfl rfl (Or.inl rfl)

end Miroslava
